import Mathlib

/-!
Shallow embedding of the vibe-kanban tracker core: the activity state
machine, the metrics collector (bounded queue), the background
orchestration callback, the export cycle and the OTLP exporter retry
loop.  Timestamps and metric values are modelled as `Int` (JS numbers
used as millisecond timestamps and integer counters); each call that
reads the clock takes the current time as an explicit `now` argument.
-/

namespace VibeTracker

/-- Route types produced by the URL parser (`src/content/url-parser`). -/
inductive RouteType
  | workspace
  | workspace_create
  | task_board
  | task_detail
  | unknown
deriving DecidableEq

def RouteType.toAttrString : RouteType → String
  | .workspace => "workspace"
  | .workspace_create => "workspace_create"
  | .task_board => "task_board"
  | .task_detail => "task_detail"
  | .unknown => "unknown"

/-- The view modifier carried by a route (`diffs` or `preview`); `none`
models both `null` and an absent field, which the code treats alike
(falsy). -/
inductive ViewKind
  | diffs
  | preview
deriving DecidableEq

def ViewKind.toAttrString : ViewKind → String
  | .diffs => "diffs"
  | .preview => "preview"

/-- `ParsedRoute` from `src/content/url-parser`. -/
structure ParsedRoute where
  type : RouteType
  workspaceId : Option String := none
  projectId : Option String := none
  taskId : Option String := none
  view : Option ViewKind := none
deriving DecidableEq

/-- The three activity states of the state machine. -/
inductive ActivityState
  | active
  | idle
  | unfocused
deriving DecidableEq

/-- `StateContext` of the state machine. -/
structure StateContext where
  currentState : ActivityState
  lastActivityTime : Int
  lastStateChangeTime : Int
  currentRoute : Option ParsedRoute
deriving DecidableEq

/-- `StateEvent` union fed to `StateMachine.transition`. -/
inductive StateEvent
  | FOCUS
  | BLUR
  | ACTIVITY
  | IDLE_TIMEOUT
  | NAVIGATE (route : ParsedRoute)
deriving DecidableEq

/-- One invocation of the registered `onStateChange` observer: the
arguments `(prev, next, context snapshot)` it receives. -/
structure ObserverCall where
  prev : ActivityState
  next : ActivityState
  context : StateContext
deriving DecidableEq

/-- The `switch` block of `StateMachine.transition`: computes the
updated context fields (lastActivityTime, currentRoute) and the
candidate next state, before the change-commit step. -/
def transitionStep (idleTimeoutMs : Int) (ctx : StateContext)
    (e : StateEvent) (now : Int) : StateContext × ActivityState :=
  let prevState := ctx.currentState
  match e with
  | .FOCUS =>
      if prevState = .unfocused then
        ({ ctx with lastActivityTime := now }, .active)
      else (ctx, prevState)
  | .BLUR =>
      if prevState = .active ∨ prevState = .idle then (ctx, .unfocused)
      else (ctx, prevState)
  | .ACTIVITY =>
      let nextState := if prevState = .idle then ActivityState.active else prevState
      if prevState = .active ∨ nextState = .active then
        ({ ctx with lastActivityTime := now }, nextState)
      else (ctx, nextState)
  | .IDLE_TIMEOUT =>
      if prevState = .active ∧ now - ctx.lastActivityTime ≥ idleTimeoutMs then
        (ctx, .idle)
      else (ctx, prevState)
  | .NAVIGATE route =>
      ({ ctx with currentRoute := some route }, prevState)

/-- `StateMachine.transition`: runs the switch, and when the candidate
next state differs from the previous one commits it, stamps
`lastStateChangeTime := now` and invokes the observer (returned here as
`some` call); otherwise returns the context with no observer call. -/
def transition (idleTimeoutMs : Int) (ctx : StateContext)
    (e : StateEvent) (now : Int) : StateContext × Option ObserverCall :=
  let p := transitionStep idleTimeoutMs ctx e now
  if p.2 ≠ ctx.currentState then
    let ctx2 := { p.1 with currentState := p.2, lastStateChangeTime := now }
    (ctx2, some ⟨ctx.currentState, p.2, ctx2⟩)
  else (p.1, none)

/-- The context the `StateMachine` constructor builds (state
`unfocused`, both timestamps set to the construction time, no route). -/
def initialContext (now : Int) : StateContext :=
  { currentState := .unfocused
    lastActivityTime := now
    lastStateChangeTime := now
    currentRoute := none }

/-- Attribute values: strings or numbers, as in
`Record<string, string | number>`. -/
inductive AttrValue
  | str (s : String)
  | num (n : Int)
deriving DecidableEq

/-- Attribute maps, modelled as association lists in JS property
insertion order. -/
abbrev Attrs := List (String × AttrValue)

/-- JS object property assignment: replaces the value in place when the
key exists, appends otherwise. -/
def setAttr (attrs : Attrs) (k : String) (v : AttrValue) : Attrs :=
  if attrs.any (fun p => p.1 = k) then
    attrs.map (fun p => if p.1 = k then (k, v) else p)
  else attrs ++ [(k, v)]

inductive MetricType
  | counter
  | gauge
deriving DecidableEq

/-- `MetricRecord` from the metrics collector. -/
structure MetricRecord where
  name : String
  type : MetricType
  value : Int
  timestamp : Int
  attributes : Attrs
deriving DecidableEq

/-- `MetricsCollector.buildRouteAttributes`.  The optional project-name
cache is modelled as an optional lookup function; `if (route.x)`
truthiness checks on string fields exclude the empty string. -/
def buildRouteAttributes (cache : Option (String → Option String))
    (route : ParsedRoute) (machineId : String) : Attrs :=
  let attrs : Attrs :=
    [("machine_id", .str machineId), ("route_type", .str route.type.toAttrString)]
  let attrs :=
    match route.workspaceId with
    | some w => if w ≠ "" then attrs ++ [("workspace_id", .str w)] else attrs
    | none => attrs
  let attrs :=
    match route.projectId with
    | some p =>
        if p ≠ "" then
          let attrs := attrs ++ [("project_id", .str p)]
          match cache with
          | some lookup =>
              match lookup p with
              | some projectName =>
                  if projectName ≠ "" then attrs ++ [("project_name", .str projectName)]
                  else attrs
              | none => attrs
          | none => attrs
        else attrs
    | none => attrs
  let attrs :=
    match route.taskId with
    | some t => if t ≠ "" then attrs ++ [("task_id", .str t)] else attrs
    | none => attrs
  match route.view with
  | some v => attrs ++ [("view", .str v.toAttrString)]
  | none => attrs

/-- `maxQueueSize` of the collector. -/
def maxQueueSize : Nat := 1000

/-- `MetricsCollector.addMetric`: push, then trim from the front
(`slice(-maxQueueSize)`) when over the bound. -/
def addMetric (metrics : List MetricRecord) (m : MetricRecord) : List MetricRecord :=
  let metrics := metrics ++ [m]
  if metrics.length > maxQueueSize then
    metrics.drop (metrics.length - maxQueueSize)
  else metrics

/-- `MetricsCollector.restore`: prepend the restored records, then keep
the last `maxQueueSize` entries (`slice(-maxQueueSize)`). -/
def restore (restored queue : List MetricRecord) : List MetricRecord :=
  let combined := restored ++ queue
  combined.drop (combined.length - maxQueueSize)

/-- The record built by `MetricsCollector.recordActiveTime`. -/
def mkActiveTimeRecord (cache : Option (String → Option String))
    (durationMs : Int) (route : ParsedRoute) (machineId : String)
    (now : Int) : MetricRecord :=
  { name := "vibe_kanban.active_time.duration_ms"
    type := .gauge
    value := durationMs
    timestamp := now
    attributes := buildRouteAttributes cache route machineId }

/-- `MetricsCollector.recordActiveTime`. -/
def recordActiveTime (cache : Option (String → Option String))
    (metrics : List MetricRecord) (durationMs : Int) (route : ParsedRoute)
    (machineId : String) (now : Int) : List MetricRecord :=
  addMetric metrics (mkActiveTimeRecord cache durationMs route machineId now)

/-- The record built by `MetricsCollector.recordViewDuration`: the
spread of the route attributes with the `view` key then (re)assigned to
the passed view. -/
def mkViewDurationRecord (cache : Option (String → Option String))
    (view : ViewKind) (durationMs : Int) (route : ParsedRoute)
    (machineId : String) (now : Int) : MetricRecord :=
  { name := "vibe_kanban.view.duration_ms"
    type := .gauge
    value := durationMs
    timestamp := now
    attributes := setAttr (buildRouteAttributes cache route machineId) "view"
      (.str view.toAttrString) }

/-- `MetricsCollector.recordViewDuration`. -/
def recordViewDuration (cache : Option (String → Option String))
    (metrics : List MetricRecord) (view : ViewKind) (durationMs : Int)
    (route : ParsedRoute) (machineId : String) (now : Int) : List MetricRecord :=
  addMetric metrics (mkViewDurationRecord cache view durationMs route machineId now)

/-! ### Background orchestration (`src/background/index.ts`)

The background script owns the state machine, the collector (built with
no project-name cache), and the module-level session markers
`activeStateStartTime`, `currentViewStartTime`, `currentView`. -/

/-- The mutable background state touched by the orchestration callback
and the message handlers. -/
structure OrchState where
  ctx : StateContext
  activeStateStartTime : Option Int
  currentViewStartTime : Option Int
  currentView : Option ViewKind
  metrics : List MetricRecord
deriving DecidableEq

/-- The state at module load: the machine constructor context and all
three session markers `null`, empty queue. -/
def initialOrchState (now : Int) : OrchState :=
  { ctx := initialContext now
    activeStateStartTime := none
    currentViewStartTime := none
    currentView := none
    metrics := [] }

/-- First block of the `setOnStateChange` callback: when leaving
`active` with an open session, record the active-time duration if the
context carries a route (skip it otherwise), and clear the marker. -/
def recordActiveOnLeave (machineId : String) (s : OrchState)
    (prev : ActivityState) (context : StateContext) (now : Int) : OrchState :=
  if prev = .active then
    match s.activeStateStartTime with
    | some start =>
        let s :=
          match context.currentRoute with
          | some route =>
              { s with metrics :=
                  recordActiveTime none s.metrics (now - start) route machineId now }
          | none => s
        { s with activeStateStartTime := none }
    | none => s
  else s

/-- Second block of the callback: entering `active` opens a session. -/
def startActiveOnEnter (s : OrchState) (next : ActivityState) (now : Int) : OrchState :=
  if next = .active then { s with activeStateStartTime := some now } else s

/-- Third block of the callback: any state change closes an open view
session, recording its duration when the context carries a route. -/
def closeViewOnChange (machineId : String) (s : OrchState)
    (context : StateContext) (now : Int) : OrchState :=
  match s.currentViewStartTime, s.currentView, context.currentRoute with
  | some viewStart, some v, some route =>
      { s with
          metrics :=
            recordViewDuration none s.metrics v (now - viewStart) route machineId now
          currentViewStartTime := none
          currentView := none }
  | _, _, _ => s

/-- The orchestration callback registered by `setupStateChangeCallback`,
run on every observer invocation `(prev, next, context)`. -/
def stateChangeCallback (machineId : String) (s : OrchState)
    (prev next : ActivityState) (context : StateContext) (now : Int) : OrchState :=
  closeViewOnChange machineId
    (startActiveOnEnter (recordActiveOnLeave machineId s prev context now) next now)
    context now

/-- One `transition` call on the background state machine with the
orchestration callback registered: the callback runs exactly when the
observer is invoked. -/
def orchStep (idleTimeoutMs : Int) (machineId : String) (s : OrchState)
    (e : StateEvent) (now : Int) : OrchState :=
  let p := transition idleTimeoutMs s.ctx e now
  let s := { s with ctx := p.1 }
  match p.2 with
  | some call => stateChangeCallback machineId s call.prev call.next call.context now
  | none => s

/-- A sequence of transition calls, each tagged with the clock value at
which it runs. -/
def orchRun (idleTimeoutMs : Int) (machineId : String) (s : OrchState)
    (events : List (StateEvent × Int)) : OrchState :=
  events.foldl (fun s p => orchStep idleTimeoutMs machineId s p.1 p.2) s

/-- The `NAVIGATION` message handler (for a message whose payload
carries a route): record the open view session against the route in
effect before the navigation, apply the `NAVIGATE` transition, then
open a new view session exactly when the new route has a view. -/
def navigationMessage (idleTimeoutMs : Int) (machineId : String)
    (s : OrchState) (route : ParsedRoute) (now : Int) : OrchState :=
  let s :=
    match s.currentViewStartTime, s.currentView with
    | some viewStart, some v =>
        match s.ctx.currentRoute with
        | some prevRoute =>
            { s with metrics :=
                recordViewDuration none s.metrics v (now - viewStart) prevRoute machineId now }
        | none => s
    | _, _ => s
  let s := orchStep idleTimeoutMs machineId s (.NAVIGATE route) now
  match route.view with
  | some v =>
      { s with currentView := some v, currentViewStartTime := some now }
  | none =>
      { s with currentView := none, currentViewStartTime := none }

/-! ### Export cycle (`exportMetrics` in `src/background/index.ts`) -/

/-- Storage writes performed through the `StorageManager` during one
export cycle. -/
inductive StorageOp
  | savePending (batch : List MetricRecord)
  | clearPending
deriving DecidableEq

/-- Outcome of one `exportMetrics` cycle: the collector queue and the
persisted `pendingMetrics` afterwards, plus the storage writes in
order. -/
structure ExportCycleResult where
  queue : List MetricRecord
  pending : List MetricRecord
  ops : List StorageOp
deriving DecidableEq

/-- One `exportMetrics` cycle.  `queue` is the collector queue at flush
time; `appendedDuring` are the records appended to the collector while
the awaited persistence/export steps were in flight; `success` is the
exporter verdict.  An
empty flush clears persistence and stops; otherwise the batch is saved
as pending, then on success persistence is cleared, and on failure the
batch is restored into the collector (no further storage write). -/
def exportCycle (queue appendedDuring : List MetricRecord) (success : Bool) :
    ExportCycleResult :=
  let metrics := queue
  if metrics.isEmpty then
    { queue := appendedDuring, pending := [], ops := [.clearPending] }
  else if success then
    { queue := appendedDuring, pending := [], ops := [.savePending metrics, .clearPending] }
  else
    { queue := restore metrics appendedDuring
      pending := metrics
      ops := [.savePending metrics] }

/-! ### OTLP exporter retry loop (`src/background/otel-exporter.ts`) -/

def MAX_RETRIES : Nat := 3

def INITIAL_BACKOFF_MS : Nat := 1000

/-- What one delivery attempt observes: a transport-level exception, or
an HTTP response with a status code. -/
inductive AttemptOutcome
  | transportError
  | httpResponse (status : Nat)
deriving DecidableEq

/-- Result of `export`: the returned boolean, the number of delivery
attempts made, and the backoff delays slept between attempts. -/
structure ExportResult where
  success : Bool
  attempts : Nat
  backoffs : List Nat
deriving DecidableEq

/-- The `for (attempt …)` loop of `OTelExporter.export`.  `fuel` is the
number of loop iterations remaining (`MAX_RETRIES - attempt`); a 2xx
response (`response.ok`) returns success, a 4xx other than 429 aborts
with failure, and any other outcome sleeps `1000 * 2 ^ attempt` before
the next iteration, or falls out of the loop with failure. -/
def exportLoop (outcomes : Nat → AttemptOutcome) : Nat → Nat → ExportResult
  | attempt, 0 => { success := false, attempts := attempt, backoffs := [] }
  | attempt, fuel + 1 =>
      let failStep : ExportResult :=
        if fuel = 0 then
          { success := false, attempts := attempt + 1, backoffs := [] }
        else
          let r := exportLoop outcomes (attempt + 1) fuel
          { r with backoffs := (INITIAL_BACKOFF_MS * 2 ^ attempt) :: r.backoffs }
      match outcomes attempt with
      | .transportError => failStep
      | .httpResponse status =>
          if 200 ≤ status ∧ status ≤ 299 then
            { success := true, attempts := attempt + 1, backoffs := [] }
          else if 400 ≤ status ∧ status < 500 ∧ status ≠ 429 then
            { success := false, attempts := attempt + 1, backoffs := [] }
          else failStep

/-- `OTelExporter.export`: empty input is trivially successful with no
network call; otherwise run the retry loop. -/
def exportRecords (metrics : List MetricRecord)
    (outcomes : Nat → AttemptOutcome) : ExportResult :=
  if metrics.isEmpty then { success := true, attempts := 0, backoffs := [] }
  else exportLoop outcomes 0 MAX_RETRIES

/-! ### Helper lemmas -/

/-- The switch block never touches `currentState`. -/
theorem transitionStep_fst_currentState (idleTimeoutMs : Int) (ctx : StateContext)
    (e : StateEvent) (now : Int) :
    (transitionStep idleTimeoutMs ctx e now).1.currentState = ctx.currentState := by
  cases e <;> simp only [transitionStep] <;> split_ifs <;> rfl

/-- The switch block never touches `lastStateChangeTime`. -/
theorem transitionStep_fst_lastStateChangeTime (idleTimeoutMs : Int) (ctx : StateContext)
    (e : StateEvent) (now : Int) :
    (transitionStep idleTimeoutMs ctx e now).1.lastStateChangeTime = ctx.lastStateChangeTime := by
  cases e <;> simp only [transitionStep] <;> split_ifs <;> rfl

/-- A `NAVIGATE` event only replaces `currentRoute` and never invokes
the observer. -/
theorem transition_navigate (idleTimeoutMs : Int) (ctx : StateContext)
    (route : ParsedRoute) (now : Int) :
    transition idleTimeoutMs ctx (.NAVIGATE route) now =
      ({ ctx with currentRoute := some route }, none) := by
  simp [transition, transitionStep]

/-- Under the bound, `addMetric` is a plain append. -/
theorem addMetric_of_lt (metrics : List MetricRecord) (m : MetricRecord)
    (h : metrics.length < maxQueueSize) :
    addMetric metrics m = metrics ++ [m] := by
  simp only [addMetric, List.length_append, List.length_singleton]
  rw [if_neg (by omega)]

/-! ### Claims -/

/-- Claim C1: for every transition call (hence for every call in every
sequence of calls, the context being arbitrary), the observer is
invoked if and only if the resulting state differs from the state
before the call; `lastStateChangeTime` is updated to the call time
exactly on those calls and is untouched otherwise; and a `NAVIGATE`
event never invokes the observer — it only replaces `currentRoute`. -/
theorem transition_observer_iff_state_change
    (idleTimeoutMs : Int) (ctx : StateContext) (e : StateEvent) (now : Int) :
    ((transition idleTimeoutMs ctx e now).2.isSome ↔
        (transition idleTimeoutMs ctx e now).1.currentState ≠ ctx.currentState)
    ∧ ((transition idleTimeoutMs ctx e now).1.lastStateChangeTime =
        if (transition idleTimeoutMs ctx e now).1.currentState ≠ ctx.currentState
        then now else ctx.lastStateChangeTime)
    ∧ (∀ route, e = .NAVIGATE route →
        transition idleTimeoutMs ctx e now =
          ({ ctx with currentRoute := some route }, none)) := by
  refine ⟨?_, ?_, fun route he => he ▸ transition_navigate idleTimeoutMs ctx route now⟩ <;>
  · unfold transition
    by_cases h : (transitionStep idleTimeoutMs ctx e now).2 = ctx.currentState <;>
      simp [h, transitionStep_fst_currentState, transitionStep_fst_lastStateChangeTime]

/-- Witness for C1 at a concrete input: a `NAVIGATE` call from the
initial context replaces the route and fires no observer. -/
theorem transition_observer_iff_state_change_witness :
    transition 60000 (initialContext 0) (.NAVIGATE { type := .unknown }) 5 =
      ({ initialContext 0 with currentRoute := some { type := .unknown } }, none) :=
  (transition_observer_iff_state_change 60000 (initialContext 0)
      (.NAVIGATE { type := .unknown }) 5).2.2 { type := .unknown } rfl

/-- Claim C4: an `IDLE_TIMEOUT` event in state `active` moves the
machine to `idle` if and only if `now - lastActivityTime ≥
idleTimeoutMs`; below the threshold the whole context (in particular
the state) is unchanged. -/
theorem idle_timeout_threshold (idleTimeoutMs : Int) (ctx : StateContext) (now : Int)
    (h : ctx.currentState = .active) :
    ((transition idleTimeoutMs ctx .IDLE_TIMEOUT now).1.currentState = .idle ↔
        now - ctx.lastActivityTime ≥ idleTimeoutMs)
    ∧ (now - ctx.lastActivityTime < idleTimeoutMs →
        (transition idleTimeoutMs ctx .IDLE_TIMEOUT now).1 = ctx) := by
  constructor
  · by_cases hge : now - ctx.lastActivityTime ≥ idleTimeoutMs <;>
      simp [transition, transitionStep, h, hge]
  · intro hlt
    have hge : ¬ now - ctx.lastActivityTime ≥ idleTimeoutMs := by omega
    simp [transition, transitionStep, h, hge]

/-- Witness for C4: with `lastActivityTime = 0`, timeout 60000 and
`now = 60000`, the machine goes idle. -/
theorem idle_timeout_threshold_witness :
    (transition 60000
        { currentState := .active, lastActivityTime := 0,
          lastStateChangeTime := 0, currentRoute := none }
        .IDLE_TIMEOUT 60000).1.currentState = .idle :=
  (idle_timeout_threshold 60000
      { currentState := .active, lastActivityTime := 0,
        lastStateChangeTime := 0, currentRoute := none } 60000 rfl).1.mpr (by decide)

/-- A concrete record used in witnesses and counterexamples. -/
def dummyRec : MetricRecord :=
  { name := "vibe_kanban.scroll.count", type := .counter, value := 1,
    timestamp := 0, attributes := [("machine_id", .str "m-1")] }

/-- A second concrete record. -/
def dummyRec2 : MetricRecord :=
  { name := "vibe_kanban.scroll.distance_px", type := .counter, value := 40,
    timestamp := 1, attributes := [("machine_id", .str "m-1")] }

/-- A third concrete record. -/
def dummyRec3 : MetricRecord :=
  { name := "vibe_kanban.human_intervention.count", type := .counter, value := 1,
    timestamp := 2, attributes := [("machine_id", .str "m-1")] }

/-- Claim C5: the queue never exceeds 1000 records after any append or
restore; appending to a full queue of 1000 drops exactly the earliest
record (leaving 1000); and restore truncates from the front only: its
result is a suffix of the combined list whose length is exactly
`min (combined length) 1000`, so a restore that brings the combined
queue over capacity keeps exactly the most recent 1000 records. -/
theorem queue_bound_enforced (q ms : List MetricRecord) (m : MetricRecord) :
    (addMetric q m).length ≤ maxQueueSize
    ∧ (q.length = maxQueueSize → addMetric q m = q.drop 1 ++ [m])
    ∧ (restore ms q).length ≤ maxQueueSize
    ∧ List.IsSuffix (restore ms q) (ms ++ q)
    ∧ (restore ms q).length = min (ms ++ q).length maxQueueSize := by
  refine ⟨?_, ?_, ?_, List.drop_suffix _ _, ?_⟩
  · simp only [addMetric]
    split_ifs with h
    · simp only [List.length_drop, List.length_append, List.length_cons,
        List.length_nil] at h ⊢
      omega
    · simp only [List.length_append, List.length_cons, List.length_nil] at h ⊢
      omega
  · intro hq
    simp only [addMetric]
    rw [if_pos]
    · have h1 : (q ++ [m]).length - maxQueueSize = 1 := by
        simp only [List.length_append, List.length_cons, List.length_nil, hq]
        omega
      rw [h1]
      cases q with
      | nil => simp [maxQueueSize] at hq
      | cons a t => simp
    · simp only [List.length_append, List.length_cons, List.length_nil, hq]
      omega
  · simp only [restore, List.length_drop]
    omega
  · simp only [restore, List.length_drop]
    omega

/-- Witness for C5: appending a 1001st record to a full queue of 1000
keeps 1000 records and drops the earliest one. -/
theorem queue_bound_enforced_witness :
    addMetric (List.replicate maxQueueSize dummyRec) dummyRec2 =
      (List.replicate maxQueueSize dummyRec).drop 1 ++ [dummyRec2] :=
  (queue_bound_enforced (List.replicate maxQueueSize dummyRec) [] dummyRec2).2.1
    (by simp)

/-- Claim C6: under the capacity bound, `restore [A, B]` followed by
recording `C` yields the queue `A :: B :: (older records ++ [C])` — the
restored records sit ahead of everything recorded since the flush, in
their original relative order, and the new record is appended last
(order `[A, B, C]` on an empty queue). -/
theorem restore_then_record_order (q : List MetricRecord) (A B C : MetricRecord)
    (h : q.length + 3 ≤ maxQueueSize) :
    addMetric (restore [A, B] q) C = A :: B :: (q ++ [C]) := by
  have h1 : restore [A, B] q = A :: B :: q := by
    simp only [restore, List.cons_append, List.nil_append, List.length_cons]
    have h0 : q.length + 1 + 1 - maxQueueSize = 0 := by omega
    rw [h0, List.drop_zero]
  rw [h1, addMetric_of_lt]
  · simp
  · simp only [List.length_cons]
    omega

/-- Witness for C6: on the empty queue, `restore [A, B]` then recording
`C` yields exactly `[A, B, C]`. -/
theorem restore_then_record_order_witness :
    addMetric (restore [dummyRec, dummyRec2] []) dummyRec3 =
      dummyRec :: dummyRec2 :: ([] ++ [dummyRec3]) :=
  restore_then_record_order [] dummyRec dummyRec2 dummyRec3 (by decide)

set_option maxRecDepth 10000 in
/-- Counterexample for C3: with a full flushed batch of 1000 records
and one record appended during the export attempt, a failed export does
not restore the whole batch ahead of the newer record — the combined
list is truncated to 1000, dropping the batch head. -/
theorem export_failure_restore_counterexample :
    (exportCycle (dummyRec :: List.replicate 999 dummyRec) [dummyRec2] false).queue
      ≠ (dummyRec :: List.replicate 999 dummyRec) ++ [dummyRec2] := by
  intro h
  have hlen := congrArg List.length h
  rw [show (exportCycle (dummyRec :: List.replicate 999 dummyRec) [dummyRec2] false).queue
      = restore (dummyRec :: List.replicate 999 dummyRec) [dummyRec2] from rfl] at hlen
  simp only [restore, List.length_drop, List.length_append, List.length_cons,
    List.length_replicate, List.length_nil, maxQueueSize] at hlen
  omega

/-- Claim C3 (amended: the restored batch is prepended ahead of the
records appended since the flush and the combined queue is then
truncated to the most recent 1000 records, so the whole batch survives
exactly when the combined size is within the bound): on success the
persisted pending list is cleared; on failure the batch becomes the
persisted pending list, the resulting queue is a suffix of
`batch ++ appendedSinceFlush` (truncation from the front only) whose
length is exactly `min (combined length) 1000` — over capacity it is
exactly the most recent 1000 records of the combined list — and when
the combined size is within the bound it equals
`batch ++ appendedSinceFlush` — the very same records, timestamps and
attributes untouched. -/
theorem export_failure_restore_amended (queue appended : List MetricRecord)
    (hne : queue ≠ []) :
    (exportCycle queue appended true).pending = []
    ∧ (exportCycle queue appended false).pending = queue
    ∧ List.IsSuffix (exportCycle queue appended false).queue (queue ++ appended)
    ∧ (exportCycle queue appended false).queue.length =
        min (queue ++ appended).length maxQueueSize
    ∧ (queue.length + appended.length ≤ maxQueueSize →
        (exportCycle queue appended false).queue = queue ++ appended) := by
  have hq : queue.isEmpty = false := by
    cases queue with
    | nil => exact absurd rfl hne
    | cons a t => rfl
  refine ⟨by simp [exportCycle, hq], by simp [exportCycle, hq], ?_, ?_, ?_⟩
  · simp only [exportCycle, hq, Bool.false_eq_true, if_false, restore]
    exact List.drop_suffix _ _
  · simp only [exportCycle, hq, Bool.false_eq_true, if_false, restore,
      List.length_drop]
    omega
  · intro hcap
    simp only [exportCycle, hq, Bool.false_eq_true, if_false, restore]
    have h0 : (queue ++ appended).length - maxQueueSize = 0 := by
      simp only [List.length_append]
      omega
    rw [h0, List.drop_zero]

/-- Witness for C3 (amended) at a concrete input: a failed export of a
two-record batch with one record appended during the attempt restores
the batch ahead of the newer record. -/
theorem export_failure_restore_amended_witness :
    (exportCycle [dummyRec, dummyRec2] [dummyRec3] false).queue =
      [dummyRec, dummyRec2] ++ [dummyRec3] :=
  (export_failure_restore_amended [dummyRec, dummyRec2] [dummyRec3]
      (by decide)).2.2.2.2 (by decide)

/-- The retry loop never makes more than `attempt + fuel` delivery
attempts counting from attempt index `attempt`. -/
theorem exportLoop_attempts_le (outcomes : Nat → AttemptOutcome) (attempt fuel : Nat) :
    (exportLoop outcomes attempt fuel).attempts ≤ attempt + fuel := by
  induction fuel generalizing attempt with
  | zero => simp [exportLoop]
  | succ n ih =>
    rw [exportLoop]
    cases outcomes attempt with
    | transportError =>
      by_cases hn : n = 0
      all_goals simp [hn]
      all_goals first
        | omega
        | exact Nat.le_trans (ih (attempt + 1)) (by omega)
    | httpResponse s =>
      by_cases hok : 200 ≤ s ∧ s ≤ 299 <;>
        by_cases h4 : 400 ≤ s ∧ s < 500 ∧ s ≠ 429 <;>
          by_cases hn : n = 0
      all_goals simp [hok, h4, hn]
      all_goals first
        | omega
        | exact Nat.le_trans (ih (attempt + 1)) (by omega)

/-- Claim C7: `export` on a non-empty batch makes at most 3 delivery
attempts; and when the first two attempts fail with a transport-level
exception and the third receives a 2xx response, it returns true with
exactly 3 attempts, having slept the backoff delays 1000 ms then
2000 ms between attempts. -/
theorem export_retry_attempts (metrics : List MetricRecord)
    (outcomes : Nat → AttemptOutcome) (s : Nat) (hne : metrics ≠ []) :
    (exportRecords metrics outcomes).attempts ≤ 3
    ∧ (outcomes 0 = .transportError → outcomes 1 = .transportError →
        outcomes 2 = .httpResponse s → 200 ≤ s → s ≤ 299 →
        exportRecords metrics outcomes =
          { success := true, attempts := 3, backoffs := [1000, 2000] }) := by
  have hq : metrics.isEmpty = false := by
    cases metrics with
    | nil => exact absurd rfl hne
    | cons a t => rfl
  constructor
  · simp only [exportRecords, hq, Bool.false_eq_true, if_false]
    exact Nat.le_trans (exportLoop_attempts_le outcomes 0 MAX_RETRIES) (by decide)
  · intro h0 h1 h2 hs1 hs2
    simp only [exportRecords, hq, Bool.false_eq_true, if_false, MAX_RETRIES]
    have e2 : exportLoop outcomes 2 1 =
        { success := true, attempts := 3, backoffs := [] } := by
      rw [exportLoop, h2]
      simp [hs1, hs2]
    have e1 : exportLoop outcomes 1 2 =
        { success := true, attempts := 3, backoffs := [2000] } := by
      rw [exportLoop, h1]
      simp [e2, INITIAL_BACKOFF_MS]
    rw [exportLoop, h0]
    simp [e1, INITIAL_BACKOFF_MS]

/-- Witness for C7: three records, two transport errors then HTTP 204 —
export succeeds after 3 attempts with backoffs of 1 s and 2 s. -/
theorem export_retry_attempts_witness :
    exportRecords [dummyRec, dummyRec2, dummyRec3]
        (fun n => if n < 2 then .transportError else .httpResponse 204) =
      { success := true, attempts := 3, backoffs := [1000, 2000] } :=
  (export_retry_attempts [dummyRec, dummyRec2, dummyRec3]
      (fun n => if n < 2 then .transportError else .httpResponse 204) 204
      (by decide)).2 rfl rfl rfl (by decide) (by decide)

/-- Claim C8: a 4xx response other than 429 on the first attempt makes
`export` return false immediately — exactly one attempt, no backoff
sleeps. -/
theorem export_non_retryable_4xx (metrics : List MetricRecord)
    (outcomes : Nat → AttemptOutcome) (s : Nat) (hne : metrics ≠ [])
    (h0 : outcomes 0 = .httpResponse s) (h4 : 400 ≤ s) (h5 : s < 500)
    (h429 : s ≠ 429) :
    exportRecords metrics outcomes =
      { success := false, attempts := 1, backoffs := [] } := by
  have hq : metrics.isEmpty = false := by
    cases metrics with
    | nil => exact absurd rfl hne
    | cons a t => rfl
  simp only [exportRecords, hq, Bool.false_eq_true, if_false, MAX_RETRIES]
  rw [exportLoop, h0]
  have hno : ¬ (200 ≤ s ∧ s ≤ 299) := by omega
  simp [hno, h4, h5, h429]

/-- Witness for C8: HTTP 404 on the first attempt aborts immediately
with failure. -/
theorem export_non_retryable_4xx_witness :
    exportRecords [dummyRec] (fun _ => .httpResponse 404) =
      { success := false, attempts := 1, backoffs := [] } :=
  export_non_retryable_4xx [dummyRec] (fun _ => .httpResponse 404) 404
    (by decide) rfl (by decide) (by decide) (by decide)

/-- Counterexample for C9: in a failed export cycle on batch
`[dummyRec]`, the only storage write is the pre-attempt save of the
batch as pending — no save happens after the attempt, contradicting
the claim that a save happens after the attempt regardless of the
outcome. -/
theorem export_cycle_saves_counterexample :
    (exportCycle [dummyRec] [] false).ops = [StorageOp.savePending [dummyRec]] := rfl

/-- Claim C9 (amended: the persisted state is saved before the
delivery attempt with the batch stored as `pendingMetrics`; a second
save — clearing the pending list — happens after the attempt only when
the exporter reports success, and on failure no post-attempt save
occurs, the pre-attempt pending batch remaining persisted): the
storage-write trace of every non-empty export cycle. -/
theorem export_cycle_saves_amended (queue appended : List MetricRecord)
    (hne : queue ≠ []) :
    (exportCycle queue appended true).ops = [.savePending queue, .clearPending]
    ∧ (exportCycle queue appended false).ops = [.savePending queue]
    ∧ (exportCycle queue appended false).pending = queue := by
  have hq : queue.isEmpty = false := by
    cases queue with
    | nil => exact absurd rfl hne
    | cons a t => rfl
  refine ⟨?_, ?_, ?_⟩ <;> simp [exportCycle, hq]

/-- Witness for C9 (amended) at a concrete input: a successful cycle
saves the batch as pending and then clears it. -/
theorem export_cycle_saves_amended_witness :
    (exportCycle [dummyRec] [dummyRec2] true).ops =
      [StorageOp.savePending [dummyRec], StorageOp.clearPending] :=
  (export_cycle_saves_amended [dummyRec] [dummyRec2] (by decide)).1

/-- The task-detail route used by the C2 scenario. -/
def taskDetailRoute : ParsedRoute :=
  { type := .task_detail, projectId := some "p-1", taskId := some "t-1" }

def activeTimeName : String := "vibe_kanban.active_time.duration_ms"

/-- Number of active-time metrics in a queue. -/
def activeTimeCount (metrics : List MetricRecord) : Nat :=
  metrics.countP (fun m => m.name == activeTimeName)

/-- Entering `active` only touches the session marker, not the queue. -/
theorem startActiveOnEnter_metrics (s : OrchState) (next : ActivityState) (now : Int) :
    (startActiveOnEnter s next now).metrics = s.metrics := by
  simp only [startActiveOnEnter]
  split_ifs <;> rfl

/-- Closing a view session never records an active-time metric. -/
theorem activeTimeCount_closeView (machineId : String) (s : OrchState)
    (context : StateContext) (now : Int) (h : s.metrics.length < maxQueueSize) :
    activeTimeCount (closeViewOnChange machineId s context now).metrics =
      activeTimeCount s.metrics := by
  unfold closeViewOnChange
  cases hvs : s.currentViewStartTime with
  | none => rfl
  | some vt =>
    cases hv : s.currentView with
    | none => rfl
    | some v =>
      cases hr : context.currentRoute with
      | none => rfl
      | some r =>
        have hb : ((mkViewDurationRecord none v (now - vt) r machineId now).name
            == activeTimeName) = false := rfl
        simp [recordViewDuration, addMetric_of_lt _ _ h, activeTimeCount,
          List.countP_append, List.countP_cons, hb]

/-- Claim C2: with the orchestration callback registered, the sequence
`NAVIGATE(taskDetail)`, `FOCUS`, advance 5000 ms, `BLUR` produces
exactly one active-time metric of value 5000 whose attributes carry
that route's project and task ids; `FOCUS`, advance 5000 ms, `BLUR`
with no prior `NAVIGATE` produces zero metrics; and in general, on an
observer call leaving `active` with an open session, an active-time
metric is recorded if and only if `currentRoute` is present in the
transition context. -/
theorem active_time_scenarios_and_route_guard
    (machineId : String) (s : OrchState)
    (next : ActivityState) (context : StateContext) (now t : Int)
    (hstart : s.activeStateStartTime = some t)
    (hcap : s.metrics.length + 2 ≤ maxQueueSize) :
    ((orchRun 60000 "m-1" (initialOrchState 0)
        [(.NAVIGATE taskDetailRoute, 0), (.FOCUS, 0), (.BLUR, 5000)]).metrics =
      [{ name := "vibe_kanban.active_time.duration_ms", type := .gauge,
         value := 5000, timestamp := 5000,
         attributes := [("machine_id", .str "m-1"),
           ("route_type", .str "task_detail"),
           ("project_id", .str "p-1"), ("task_id", .str "t-1")] }])
    ∧ ((orchRun 60000 "m-1" (initialOrchState 0)
        [(.FOCUS, 0), (.BLUR, 5000)]).metrics = [])
    ∧ (activeTimeCount
          (stateChangeCallback machineId s .active next context now).metrics =
        activeTimeCount s.metrics +
          (if context.currentRoute.isSome then 1 else 0)) := by
  refine ⟨by decide, by decide, ?_⟩
  have hlt : s.metrics.length < maxQueueSize := by omega
  simp only [stateChangeCallback]
  cases hroute : context.currentRoute with
  | some r =>
    have h1 : recordActiveOnLeave machineId s .active context now =
        { s with
            metrics := s.metrics ++ [mkActiveTimeRecord none (now - t) r machineId now]
            activeStateStartTime := none } := by
      simp [recordActiveOnLeave, hstart, hroute, recordActiveTime,
        addMetric_of_lt _ _ hlt]
    rw [h1]
    rw [activeTimeCount_closeView]
    · rw [startActiveOnEnter_metrics]
      have hb : ((mkActiveTimeRecord none (now - t) r machineId now).name
          == activeTimeName) = true := rfl
      simp [activeTimeCount, List.countP_append, List.countP_cons, hb]
    · rw [startActiveOnEnter_metrics]
      simp only [List.length_append, List.length_cons, List.length_nil]
      omega
  | none =>
    have h1 : recordActiveOnLeave machineId s .active context now =
        { s with activeStateStartTime := none } := by
      simp [recordActiveOnLeave, hstart, hroute]
    rw [h1]
    rw [activeTimeCount_closeView]
    · rw [startActiveOnEnter_metrics]
      simp
    · rw [startActiveOnEnter_metrics]
      exact hlt

/-- Witness for C2: the first scenario at its concrete inputs. -/
theorem active_time_scenarios_and_route_guard_witness :
    (orchRun 60000 "m-1" (initialOrchState 0)
        [(.NAVIGATE taskDetailRoute, 0), (.FOCUS, 0), (.BLUR, 5000)]).metrics =
      [{ name := "vibe_kanban.active_time.duration_ms", type := .gauge,
         value := 5000, timestamp := 5000,
         attributes := [("machine_id", .str "m-1"),
           ("route_type", .str "task_detail"),
           ("project_id", .str "p-1"), ("task_id", .str "t-1")] }] :=
  (active_time_scenarios_and_route_guard "m-1"
      { initialOrchState 0 with activeStateStartTime := some 0 }
      .unfocused (initialContext 0) 5000 0 rfl (by decide)).1

/-- A route whose view equals the open view in the C10 witness. -/
def taskBoardDiffsRoute : ParsedRoute :=
  { type := .task_board, projectId := some "p-1", view := some .diffs }

/-- Claim C10: a `NAVIGATION` message carrying a route always closes an
open view session, recording exactly one view-duration metric
attributed to the route in effect before the navigation is applied
(`route` here is arbitrary, so in particular the statement covers a new
route whose view equals the open view); the machine's route is then
replaced, and a new view session is opened if and only if the new
route's view is `diffs` or `preview`. -/
theorem navigation_closes_view_session
    (idleTimeoutMs : Int) (machineId : String) (s : OrchState)
    (route : ParsedRoute) (now t : Int) (v : ViewKind) (r : ParsedRoute)
    (hview : s.currentView = some v) (hstart : s.currentViewStartTime = some t)
    (hroute : s.ctx.currentRoute = some r)
    (hcap : s.metrics.length < maxQueueSize) :
    (navigationMessage idleTimeoutMs machineId s route now).metrics =
        s.metrics ++ [mkViewDurationRecord none v (now - t) r machineId now]
    ∧ (navigationMessage idleTimeoutMs machineId s route now).ctx.currentRoute =
        some route
    ∧ (navigationMessage idleTimeoutMs machineId s route now).currentView = route.view
    ∧ (navigationMessage idleTimeoutMs machineId s route now).currentViewStartTime =
        (if route.view.isSome then some now else none) := by
  have hmain : navigationMessage idleTimeoutMs machineId s route now =
      let s1 : OrchState :=
        { s with metrics :=
            s.metrics ++ [mkViewDurationRecord none v (now - t) r machineId now] }
      let s2 : OrchState := { s1 with ctx := { s1.ctx with currentRoute := some route } }
      match route.view with
      | some v2 => { s2 with currentView := some v2, currentViewStartTime := some now }
      | none => { s2 with currentView := none, currentViewStartTime := none } := by
    simp only [navigationMessage, hview, hstart, hroute, recordViewDuration,
      addMetric_of_lt _ _ hcap, orchStep, transition_navigate]
  rw [hmain]
  cases hv : route.view with
  | some v2 => simp [hv]
  | none => simp [hv]

/-- Witness for C10: a navigation to a route with the same `diffs` view
still closes the open session and records one metric against the old
route. -/
theorem navigation_closes_view_session_witness :
    (navigationMessage 60000 "m-1"
        { ctx := { initialContext 0 with currentRoute := some taskDetailRoute }
          activeStateStartTime := none
          currentViewStartTime := some 100
          currentView := some .diffs
          metrics := [] }
        taskBoardDiffsRoute 400).metrics =
      [] ++ [mkViewDurationRecord none .diffs (400 - 100) taskDetailRoute "m-1" 400] :=
  (navigation_closes_view_session 60000 "m-1"
      { ctx := { initialContext 0 with currentRoute := some taskDetailRoute }
        activeStateStartTime := none
        currentViewStartTime := some 100
        currentView := some .diffs
        metrics := [] }
      taskBoardDiffsRoute 400 100 .diffs taskDetailRoute rfl rfl rfl (by decide)).1

end VibeTracker
